import Mathlib

/-!
Verification of the GMRT trading-bot decision logic (`gmrt_sell_bot.py`)
and its mock test harness (`mock_test_bot.py`).

Prices and token amounts are modelled as exact rationals (the Python code
computes with floating-point literals such as 0.30 and 0.02; the decision
logic is plain threshold arithmetic, embedded here over ℚ).  Fallible
exchange calls (`fetch_ticker`, `fetch_order_book`, order placement) are
modelled by `Option`-valued inputs to each loop cycle; the side effects
of a cycle (order placement, cancellation attempts, sleeping) are recorded
as an explicit action list.
-/

namespace GMRT

/-- Order identifiers returned by the exchange (`order['id']`). -/
abbrev OrderId := Nat

/-- An order book as returned by `fetch_order_book`: each level is a
`(price, amount)` pair. -/
structure OrderBook where
  bids : List (ℚ × ℚ)
  asks : List (ℚ × ℚ)
  deriving DecidableEq

/-- Side of an open order (`order['side']`). -/
inductive Side where
  | buy
  | sell
  deriving DecidableEq

/-- An open market-maker order as filtered by `get_mm_orders`:
the fields the trading loop reads. -/
structure MMOrder where
  side : Side
  price : ℚ
  deriving DecidableEq

-- Constants (lines 28–38 of gmrt_sell_bot.py)

/-- `MIN_SELL_PRICE = 0.30` — minimum sell price (2.5x listing price). -/
def MIN_SELL_PRICE : ℚ := 30/100

/-- `FLOOR_PRICE = 0.24` — 2x launch price (MM floor). -/
def FLOOR_PRICE : ℚ := 24/100

/-- `LAUNCH_PRICE = 0.12`. -/
def LAUNCH_PRICE : ℚ := 12/100

/-- `TOTAL_TOKENS = 5000000` — tokens to sell. -/
def TOTAL_TOKENS : ℚ := 5000000

/-- `DEPTH_PERCENTAGE = 0.02` — 2% market depth tracking. -/
def DEPTH_PERCENTAGE : ℚ := 2/100

/-- `BASE_TRADE_AMOUNT = 250000` — default trade size. -/
def BASE_TRADE_AMOUNT : ℚ := 250000

/-- Mutable state of the trading loop: the global `remaining_tokens`
counter and the global `active_orders` list. -/
structure BotState where
  remaining : ℚ
  activeOrders : List OrderId
  deriving DecidableEq

/-- The exchange-supplied inputs of one iteration of the main loop:
`price` is the result of `get_price` (`none` = the except-branch returned
`None`), `book` the result of `get_order_book`, `mmOrders` the result of
`get_mm_orders` (which returns `[]` on error), and `sellOrderId` /
`buyOrderId` the outcome of `create_limit_sell_order` /
`create_limit_buy_order` (`some id` = success, `none` = exception caught
inside `place_sell_order` / `place_buy_order`). -/
structure CycleInput where
  price : Option ℚ
  book : Option OrderBook
  mmOrders : List MMOrder
  sellOrderId : Option OrderId
  buyOrderId : Option OrderId
  deriving DecidableEq

/-- Observable side effects of one loop iteration. -/
inductive Action where
  | cancelAttempt (id : OrderId)
  | placeSell (price amount : ℚ)
  | placeBuy (price amount : ℚ)
  | sleep (seconds : Nat)
  deriving DecidableEq

/-- `get_dynamic_trade_amount` (lines 85–89): take the top 5 bid levels,
sum their amounts, and return
`min(remaining_tokens, max(BASE_TRADE_AMOUNT, total_liquidity * 0.5))`.
The global `remaining_tokens` it reads is passed explicitly. -/
def get_dynamic_trade_amount (remaining_tokens : ℚ) (order_book : OrderBook) : ℚ :=
  let bids := order_book.bids.take 5
  let total_liquidity := (bids.map Prod.snd).sum
  min remaining_tokens (max BASE_TRADE_AMOUNT (total_liquidity * (5/10)))

/-- `cancel_active_orders` (lines 74–82): issue one `cancel_order` attempt
per tracked id (each wrapped in try/except, so failures are swallowed),
then reset `active_orders` to `[]`.  Returns the attempts made and the new
value of the global list. -/
def cancel_active_orders (active_orders : List OrderId) :
    List Action × List OrderId :=
  (active_orders.map Action.cancelAttempt, [])

/-- The effect of `place_sell_order` / `place_buy_order` (lines 92–107) on
the global `active_orders` list: on success the returned order id is
appended; on exception the list is untouched. -/
def record_order (active_orders : List OrderId) (result : Option OrderId) :
    List OrderId :=
  match result with
  | some oid => active_orders ++ [oid]
  | none => active_orders

/-- Python's `min(xs, default=d)`: `d` on the empty list, otherwise the
minimum of the list (used at line 140 for the MM buy levels). -/
def pyMinD (xs : List ℚ) (d : ℚ) : ℚ :=
  match xs with
  | [] => d
  | x :: rest => rest.foldl min x

/-- Python truthiness of the fetched price at line 112
(`if not current_price`): `None` and `0.0` are both falsy. -/
def priceFalsy : Option ℚ → Bool
  | none => true
  | some p => p == 0

/-- One iteration of the main trading loop (lines 110–145), given the
current globals and the exchange's responses for this cycle.  Returns the
updated globals and the list of side effects in program order. -/
def runCycle (st : BotState) (inp : CycleInput) : BotState × List Action :=
  if priceFalsy inp.price then (st, [Action.sleep 5])
  else
    match inp.price, inp.book with
    | some current_price, some order_book =>
      let cancelled := cancel_active_orders st.activeOrders
      let min_depth_price := current_price * (1 - DEPTH_PERCENTAGE)
      let sellStep :=
        if MIN_SELL_PRICE ≤ current_price then
          let sell_price := max min_depth_price MIN_SELL_PRICE
          let sell_amount := get_dynamic_trade_amount st.remaining order_book
          ([Action.placeSell sell_price sell_amount],
           record_order cancelled.2 inp.sellOrderId,
           st.remaining - sell_amount)
        else ([], cancelled.2, st.remaining)
      let buyStep :=
        if LAUNCH_PRICE < current_price ∧ FLOOR_PRICE ≤ current_price then
          let mm_buy_price :=
            pyMinD ((inp.mmOrders.filter fun o => o.side == Side.buy).map
              MMOrder.price) min_depth_price
          let buy_price := max min_depth_price mm_buy_price
          let buy_amount := get_dynamic_trade_amount sellStep.2.2 order_book
          ([Action.placeBuy buy_price buy_amount],
           record_order sellStep.2.1 inp.buyOrderId)
        else ([], sellStep.2.1)
      (⟨sellStep.2.2, buyStep.2⟩,
       cancelled.1 ++ sellStep.1 ++ buyStep.1 ++ [Action.sleep 5])
    | _, _ => (st, [Action.sleep 5])

/-- The states the loop can be in at the top of an iteration: the globals
start at `remaining_tokens = TOTAL_TOKENS`, `active_orders = []`
(lines 33–38), and each iteration runs only while `remaining_tokens > 0`
(line 110). -/
inductive Reachable : BotState → Prop where
  | init : Reachable ⟨TOTAL_TOKENS, []⟩
  | step (st : BotState) (inp : CycleInput) :
      Reachable st → 0 < st.remaining → Reachable (runCycle st inp).1

/-- Whether an action is an order placement (a decision of the cycle). -/
def Action.isPlace : Action → Bool
  | placeSell _ _ => true
  | placeBuy _ _ => true
  | _ => false

/-- The decisions synthesized by one cycle: the order placements, with the
cancellation and sleep bookkeeping stripped. -/
def decisions (st : BotState) (inp : CycleInput) : List Action :=
  (runCycle st inp).2.filter Action.isPlace

end GMRT

namespace Mock

/-! Constants and trigger predicates of `mock_test_bot.py`. -/

/-- `MIN_SELL_PRICE = 0.30` (mock_test_bot.py line 25). -/
def MIN_SELL_PRICE : ℚ := 30/100

/-- `FLOOR_PRICE = 0.24` (mock_test_bot.py line 26). -/
def FLOOR_PRICE : ℚ := 24/100

/-- `LAUNCH_PRICE = 0.12` (mock_test_bot.py line 27). -/
def LAUNCH_PRICE : ℚ := 12/100

/-- `BASE_TRADE_AMOUNT = 250000` (mock_test_bot.py line 28). -/
def BASE_TRADE_AMOUNT : ℚ := 250000

/-- The mock bot's sell trigger (`simulate_trade`, line 132):
`price >= MIN_SELL_PRICE`. -/
def sellTrigger (price : ℚ) : Bool :=
  MIN_SELL_PRICE ≤ price

/-- The mock bot's buy trigger (`simulate_trade`, line 148):
`price > LAUNCH_PRICE and price >= FLOOR_PRICE`. -/
def buyTrigger (price : ℚ) : Bool :=
  LAUNCH_PRICE < price && FLOOR_PRICE ≤ price

end Mock

namespace GMRT

/-- The real bot's sell trigger (gmrt_sell_bot.py line 132):
`current_price >= MIN_SELL_PRICE`. -/
def sellTrigger (price : ℚ) : Bool :=
  MIN_SELL_PRICE ≤ price

/-- The real bot's buy trigger (gmrt_sell_bot.py line 139):
`current_price > LAUNCH_PRICE and current_price >= FLOOR_PRICE`. -/
def buyTrigger (price : ℚ) : Bool :=
  LAUNCH_PRICE < price && FLOOR_PRICE ≤ price

/-- Whether an action is a cancellation attempt. -/
def Action.isCancel : Action → Bool
  | cancelAttempt _ => true
  | _ => false

/-! Helper lemmas shared by the claim theorems. -/

lemma dyn_amount_le (r : ℚ) (ob : OrderBook) : get_dynamic_trade_amount r ob ≤ r :=
  min_le_left _ _

lemma dyn_amount_nonneg (r : ℚ) (ob : OrderBook) (h : 0 ≤ r) :
    0 ≤ get_dynamic_trade_amount r ob := by
  refine le_min h (le_trans ?_ (le_max_left _ _))
  norm_num [BASE_TRADE_AMOUNT]

/-- The remaining-token counter never increases in a cycle, and stays
nonnegative if it was. -/
lemma runCycle_remaining (st : BotState) (inp : CycleInput) (h : 0 ≤ st.remaining) :
    0 ≤ (runCycle st inp).1.remaining ∧ (runCycle st inp).1.remaining ≤ st.remaining := by
  obtain ⟨pr, bk, mm, sres, bres⟩ := inp
  rcases pr with _ | p
  · simpa [runCycle, priceFalsy] using h
  · by_cases hp0 : p = 0
    · subst hp0
      simpa [runCycle, priceFalsy] using h
    · rcases bk with _ | ob
      · simpa [runCycle, priceFalsy, hp0] using h
      · by_cases h1 : MIN_SELL_PRICE ≤ p <;>
          by_cases h2 : LAUNCH_PRICE < p ∧ FLOOR_PRICE ≤ p <;>
          simp [runCycle, priceFalsy, hp0, h1, h2]
        all_goals
          first
            | exact h
            | (constructor <;>
                first
                  | linarith [dyn_amount_le st.remaining ob]
                  | linarith [dyn_amount_nonneg st.remaining ob h])

end GMRT

namespace GMRT

/-- A cycle whose price or order-book fetch failed is a no-op apart from the
5-second sleep. -/
lemma runCycle_failure (st : BotState) (inp : CycleInput)
    (h : inp.price = none ∨ inp.book = none) :
    runCycle st inp = (st, [Action.sleep 5]) := by
  obtain ⟨prc, bk, mm, sres, bres⟩ := inp
  rcases h with h | h
  · simp only at h
    subst h
    simp [runCycle, priceFalsy]
  · simp only at h
    subst h
    rcases prc with _ | p
    · simp [runCycle, priceFalsy]
    · by_cases hp0 : p = 0 <;> simp [runCycle, priceFalsy, hp0]

/-! The claim theorems. -/

/-- C1: in a trading cycle where the remaining-token counter is positive and
both the price and order-book fetches succeed, the bot submits a limit sell
order if and only if the current price is at least `MIN_SELL_PRICE` (0.30). -/
theorem sell_order_iff_min_sell_price (st : BotState) (p : ℚ) (ob : OrderBook)
    (mm : List MMOrder) (sres bres : Option OrderId) (_hpos : 0 < st.remaining) :
    (∃ prc amt, Action.placeSell prc amt ∈
        (runCycle st ⟨some p, some ob, mm, sres, bres⟩).2)
      ↔ MIN_SELL_PRICE ≤ p := by
  by_cases hp0 : p = 0
  · subst hp0
    simp [runCycle, priceFalsy, MIN_SELL_PRICE]
  · by_cases h1 : MIN_SELL_PRICE ≤ p
    all_goals by_cases h2 : LAUNCH_PRICE < p ∧ FLOOR_PRICE ≤ p
    all_goals simp [runCycle, priceFalsy, hp0, h1, h2, cancel_active_orders]

/-- Witness for C1 at a concrete cycle: price 0.35, full inventory. -/
theorem sell_order_iff_min_sell_price_witness :
    (∃ prc amt, Action.placeSell prc amt ∈
        (runCycle ⟨TOTAL_TOKENS, []⟩
          ⟨some (35/100), some ⟨[(34/100, 1000)], []⟩, [], none, none⟩).2)
      ↔ MIN_SELL_PRICE ≤ 35/100 :=
  sell_order_iff_min_sell_price ⟨TOTAL_TOKENS, []⟩ (35/100) ⟨[(34/100, 1000)], []⟩
    [] none none (by norm_num [TOTAL_TOKENS])

/-- C2: `get_dynamic_trade_amount` returns
`min(remaining_tokens, max(BASE_TRADE_AMOUNT, 0.5 * sum of the amounts at the
best five bid levels))`, and its result depends only on the first five bid
levels of the order book (and the remaining-token counter). -/
theorem dynamic_trade_amount_formula (r : ℚ) (ob : OrderBook) :
    get_dynamic_trade_amount r ob
      = min r (max BASE_TRADE_AMOUNT ((5/10) * ((ob.bids.take 5).map Prod.snd).sum))
    ∧ ∀ ob' : OrderBook, ob.bids.take 5 = ob'.bids.take 5 →
        get_dynamic_trade_amount r ob = get_dynamic_trade_amount r ob' := by
  constructor
  · simp [get_dynamic_trade_amount, mul_comm]
  · intro ob' h
    simp [get_dynamic_trade_amount, h]

/-- Witness for C2: two books sharing the same bids but different asks give
the same trade amount. -/
theorem dynamic_trade_amount_formula_witness :
    get_dynamic_trade_amount 5000000 ⟨[(1, 100)], [(2, 3)]⟩
      = get_dynamic_trade_amount 5000000 ⟨[(1, 100)], []⟩ :=
  (dynamic_trade_amount_formula 5000000 ⟨[(1, 100)], [(2, 3)]⟩).2
    ⟨[(1, 100)], []⟩ rfl

/-- C3: whenever the sell decision fires, the synthesized sell price equals
`max(current_price * (1 - DEPTH_PERCENTAGE), MIN_SELL_PRICE)`, and hence is
never below `MIN_SELL_PRICE` (0.30). -/
theorem sell_price_formula (st : BotState) (p : ℚ) (ob : OrderBook)
    (mm : List MMOrder) (sres bres : Option OrderId) (h1 : MIN_SELL_PRICE ≤ p) :
    ∀ prc amt, Action.placeSell prc amt ∈
        (runCycle st ⟨some p, some ob, mm, sres, bres⟩).2 →
      prc = max (p * (1 - DEPTH_PERCENTAGE)) MIN_SELL_PRICE ∧ MIN_SELL_PRICE ≤ prc := by
  have hp0 : p ≠ 0 := by
    intro h
    rw [h] at h1
    norm_num [MIN_SELL_PRICE] at h1
  by_cases h2 : LAUNCH_PRICE < p ∧ FLOOR_PRICE ≤ p
  all_goals
    simp only [runCycle, priceFalsy, cancel_active_orders]
    simp [hp0, h1, h2]

/-- Witness for C3 at price 0.35: the sell price is 0.343 ≥ 0.30. -/
theorem sell_price_formula_witness :
    (343/1000 : ℚ) = max ((35/100 : ℚ) * (1 - DEPTH_PERCENTAGE)) MIN_SELL_PRICE
    ∧ MIN_SELL_PRICE ≤ (343/1000 : ℚ) :=
  sell_price_formula ⟨TOTAL_TOKENS, []⟩ (35/100) ⟨[(34/100, 1000)], []⟩ [] none none
    (by norm_num [MIN_SELL_PRICE]) (343/1000) (get_dynamic_trade_amount TOTAL_TOKENS ⟨[(34/100, 1000)], []⟩)
    (by norm_num [runCycle, priceFalsy, cancel_active_orders, MIN_SELL_PRICE,
          LAUNCH_PRICE, FLOOR_PRICE, DEPTH_PERCENTAGE])

/-- C4: with successful fetches, the bot submits a limit buy order iff the
current price is strictly above `LAUNCH_PRICE` (0.12) and at least
`FLOOR_PRICE` (0.24); with these constants the condition is equivalent to
the single test `FLOOR_PRICE ≤ price`. -/
theorem buy_order_iff_thresholds (st : BotState) (p : ℚ) (ob : OrderBook)
    (mm : List MMOrder) (sres bres : Option OrderId) :
    ((∃ prc amt, Action.placeBuy prc amt ∈
        (runCycle st ⟨some p, some ob, mm, sres, bres⟩).2)
      ↔ (LAUNCH_PRICE < p ∧ FLOOR_PRICE ≤ p))
    ∧ ((LAUNCH_PRICE < p ∧ FLOOR_PRICE ≤ p) ↔ FLOOR_PRICE ≤ p) := by
  constructor
  · by_cases hp0 : p = 0
    · subst hp0
      simp [runCycle, priceFalsy, LAUNCH_PRICE, FLOOR_PRICE]
    · by_cases h1 : MIN_SELL_PRICE ≤ p
      all_goals by_cases h2 : LAUNCH_PRICE < p ∧ FLOOR_PRICE ≤ p
      all_goals simp [runCycle, priceFalsy, hp0, h1, h2, cancel_active_orders]
  · constructor
    · exact And.right
    · intro h
      refine ⟨?_, h⟩
      have : (LAUNCH_PRICE : ℚ) < FLOOR_PRICE := by
        norm_num [LAUNCH_PRICE, FLOOR_PRICE]
      linarith

end GMRT

namespace GMRT

/-- Order-placement actions inside the cancellation bookkeeping: a mapped
cancellation list contains no placements. -/
lemma filter_isPlace_cancel (l : List OrderId) :
    (l.map Action.cancelAttempt).filter Action.isPlace = [] := by
  induction l with
  | nil => rfl
  | cons x xs ih => simp [Action.isPlace, ih]

/-- C5: whenever the buy decision fires, the synthesized buy price is
`max(current_price * (1 - DEPTH_PERCENTAGE), m)` where `m` is the minimum
price among the market maker's open buy orders (defaulting to
`current_price * (1 - DEPTH_PERCENTAGE)` when there are none); hence the buy
price is at least 98% of the current price. -/
theorem buy_price_formula (st : BotState) (p : ℚ) (ob : OrderBook)
    (mm : List MMOrder) (sres bres : Option OrderId)
    (h2 : LAUNCH_PRICE < p ∧ FLOOR_PRICE ≤ p) :
    ∀ prc amt, Action.placeBuy prc amt ∈
        (runCycle st ⟨some p, some ob, mm, sres, bres⟩).2 →
      prc = max (p * (1 - DEPTH_PERCENTAGE))
          (pyMinD ((mm.filter fun o => o.side == Side.buy).map MMOrder.price)
            (p * (1 - DEPTH_PERCENTAGE)))
      ∧ ((mm.filter fun o => o.side == Side.buy) = [] →
          prc = p * (1 - DEPTH_PERCENTAGE))
      ∧ (98/100) * p ≤ prc := by
  have hp0 : p ≠ 0 := by
    intro h
    rw [h] at h2
    norm_num [LAUNCH_PRICE, FLOOR_PRICE] at h2
  have hdepth : p * (1 - DEPTH_PERCENTAGE) = (98/100) * p := by
    rw [DEPTH_PERCENTAGE]
    ring
  by_cases h1 : MIN_SELL_PRICE ≤ p
  all_goals
    simp only [runCycle, priceFalsy, cancel_active_orders]
    simp [hp0, h1, h2, filter_isPlace_cancel]
  all_goals
    constructor
    · intro hmm
      have hfil : mm.filter (fun o => o.side == Side.buy) = [] := by
        rw [List.filter_eq_nil_iff]
        intro a ha
        simpa using hmm a ha
      simp [hfil, pyMinD]
    · exact Or.inl (le_of_eq hdepth.symm)

/-- Witness for C5 at price 0.35 with no MM orders: the buy price is
exactly 0.343 = 98% of the price. -/
theorem buy_price_formula_witness :
    (343/1000 : ℚ) = max ((35/100 : ℚ) * (1 - DEPTH_PERCENTAGE))
        (pyMinD ((([] : List MMOrder).filter fun o => o.side == Side.buy).map
          MMOrder.price) ((35/100 : ℚ) * (1 - DEPTH_PERCENTAGE)))
    ∧ ((([] : List MMOrder).filter fun o => o.side == Side.buy) = [] →
        (343/1000 : ℚ) = (35/100 : ℚ) * (1 - DEPTH_PERCENTAGE))
    ∧ (98/100) * (35/100 : ℚ) ≤ (343/1000 : ℚ) :=
  buy_price_formula ⟨TOTAL_TOKENS, []⟩ (35/100) ⟨[(34/100, 1000)], []⟩ [] none none
    (by norm_num [LAUNCH_PRICE, FLOOR_PRICE]) (343/1000)
    (get_dynamic_trade_amount
      (TOTAL_TOKENS - get_dynamic_trade_amount TOTAL_TOKENS ⟨[(34/100, 1000)], []⟩)
      ⟨[(34/100, 1000)], []⟩)
    (by norm_num [runCycle, priceFalsy, cancel_active_orders, MIN_SELL_PRICE,
          LAUNCH_PRICE, FLOOR_PRICE, DEPTH_PERCENTAGE, pyMinD])

/-- C6: when the price fetch or the order-book fetch fails, the cycle places
no orders, attempts no cancellations, leaves the remaining-token counter and
the active-orders list unchanged, and only sleeps 5 seconds. -/
theorem fetch_failure_cycle_noop (st : BotState) (inp : CycleInput)
    (h : inp.price = none ∨ inp.book = none) :
    runCycle st inp = (st, [Action.sleep 5]) :=
  runCycle_failure st inp h

/-- Witness for C6: a cycle whose price fetch fails changes nothing. -/
theorem fetch_failure_cycle_noop_witness :
    runCycle ⟨TOTAL_TOKENS, [7]⟩ ⟨none, none, [], none, none⟩
      = (⟨TOTAL_TOKENS, [7]⟩, [Action.sleep 5]) :=
  fetch_failure_cycle_noop ⟨TOTAL_TOKENS, [7]⟩ ⟨none, none, [], none, none⟩
    (Or.inl rfl)

/-- C7: the per-cycle decision logic is deterministic in the cycle's market
inputs: two cycles with the same current price, remaining-token counter,
order book and market-maker order list synthesize the same order decisions,
whatever the tracked active orders and placement outcomes. -/
theorem cycle_decisions_deterministic (r : ℚ) (a₁ a₂ : List OrderId)
    (prc : Option ℚ) (bk : Option OrderBook) (mm : List MMOrder)
    (s₁ b₁ s₂ b₂ : Option OrderId) :
    decisions ⟨r, a₁⟩ ⟨prc, bk, mm, s₁, b₁⟩ = decisions ⟨r, a₂⟩ ⟨prc, bk, mm, s₂, b₂⟩ := by
  rcases prc with _ | p
  · simp [decisions, runCycle, priceFalsy]
  · by_cases hp0 : p = 0
    · subst hp0
      simp [decisions, runCycle, priceFalsy]
    · rcases bk with _ | ob
      · simp [decisions, runCycle, priceFalsy, hp0]
      · by_cases h1 : MIN_SELL_PRICE ≤ p
        all_goals by_cases h2 : LAUNCH_PRICE < p ∧ FLOOR_PRICE ≤ p
        all_goals
          simp [decisions, runCycle, priceFalsy, hp0, h1, h2, cancel_active_orders,
            Action.isPlace, filter_isPlace_cancel]

end GMRT

namespace GMRT

/-- Cancellation attempts pass the `isCancel` filter unchanged. -/
lemma filter_isCancel_cancelAttempts (l : List OrderId) :
    (l.map Action.cancelAttempt).filter Action.isCancel
      = l.map Action.cancelAttempt := by
  induction l with
  | nil => rfl
  | cons x xs ih => simp [Action.isCancel, ih]

/-- C8: in every reachable state of the trading loop,
`0 ≤ remaining_tokens ≤ TOTAL_TOKENS`: the counter starts at
`TOTAL_TOKENS`, is never incremented, and each sell subtracts an amount that
`get_dynamic_trade_amount` capped at the current counter. -/
theorem remaining_tokens_invariant (st : BotState) (h : Reachable st) :
    0 ≤ st.remaining ∧ st.remaining ≤ TOTAL_TOKENS := by
  induction h with
  | init => norm_num [TOTAL_TOKENS]
  | step st' inp hr hpos ih =>
    obtain ⟨h0, hT⟩ := ih
    obtain ⟨k0, kle⟩ := runCycle_remaining st' inp h0
    exact ⟨k0, le_trans kle hT⟩

/-- Witness for C8: the state after one full-inventory cycle at price 0.35
still satisfies the invariant. -/
theorem remaining_tokens_invariant_witness :
    0 ≤ (runCycle ⟨TOTAL_TOKENS, []⟩
          ⟨some (35/100), some ⟨[(34/100, 1000)], []⟩, [], some 42, some 43⟩).1.remaining
    ∧ (runCycle ⟨TOTAL_TOKENS, []⟩
          ⟨some (35/100), some ⟨[(34/100, 1000)], []⟩, [], some 42, some 43⟩).1.remaining
        ≤ TOTAL_TOKENS :=
  remaining_tokens_invariant _
    (Reachable.step ⟨TOTAL_TOKENS, []⟩
      ⟨some (35/100), some ⟨[(34/100, 1000)], []⟩, [], some 42, some 43⟩
      Reachable.init (by norm_num [TOTAL_TOKENS]))

/-- C9 (amended): `cancel_active_orders` always resets the tracked list to
`[]` and attempts each tracked id exactly once; a cycle that reaches the
cancellation step (successful, non-zero price and successful book fetch)
attempts exactly the ids tracked on entry; a cycle whose fetch fails
attempts no cancellations and leaves the tracked list unchanged.  (An
appended id is therefore attempted at the next cycle that reaches the
cancellation step — not necessarily the immediately following cycle.) -/
theorem cancel_bookkeeping (l : List OrderId) (st : BotState) (p : ℚ)
    (ob : OrderBook) (mm : List MMOrder) (sres bres : Option OrderId)
    (hp0 : p ≠ 0) :
    (cancel_active_orders l).2 = []
    ∧ (cancel_active_orders l).1 = l.map Action.cancelAttempt
    ∧ ((runCycle st ⟨some p, some ob, mm, sres, bres⟩).2.filter Action.isCancel
        = st.activeOrders.map Action.cancelAttempt)
    ∧ ∀ inp : CycleInput, (inp.price = none ∨ inp.book = none) →
        (runCycle st inp).2.filter Action.isCancel = []
        ∧ (runCycle st inp).1.activeOrders = st.activeOrders := by
  refine ⟨rfl, rfl, ?_, ?_⟩
  · by_cases h1 : MIN_SELL_PRICE ≤ p
    all_goals by_cases h2 : LAUNCH_PRICE < p ∧ FLOOR_PRICE ≤ p
    all_goals
      simp [runCycle, priceFalsy, hp0, h1, h2, cancel_active_orders,
        Action.isCancel, filter_isCancel_cancelAttempts]
  · intro inp hfail
    rw [runCycle_failure st inp hfail]
    exact ⟨rfl, rfl⟩

/-- Witness for C9 (amended) at a concrete state tracking order 7: the
successful cycle at price 0.35 attempts exactly the cancellation of 7, and
the failed-fetch cycle attempts none and keeps the list. -/
theorem cancel_bookkeeping_witness :
    ((runCycle ⟨TOTAL_TOKENS, [7]⟩
        ⟨some (35/100), some ⟨[], []⟩, [], none, none⟩).2.filter Action.isCancel
      = (⟨TOTAL_TOKENS, [7]⟩ : BotState).activeOrders.map Action.cancelAttempt)
    ∧ ((runCycle ⟨TOTAL_TOKENS, [7]⟩ ⟨none, none, [], none, none⟩).2.filter
          Action.isCancel = []
        ∧ (runCycle ⟨TOTAL_TOKENS, [7]⟩
            ⟨none, none, [], none, none⟩).1.activeOrders
          = (⟨TOTAL_TOKENS, [7]⟩ : BotState).activeOrders) :=
  ⟨(cancel_bookkeeping [7] ⟨TOTAL_TOKENS, [7]⟩ (35/100) ⟨[], []⟩ [] none none
      (by norm_num)).2.2.1,
   (cancel_bookkeeping [7] ⟨TOTAL_TOKENS, [7]⟩ (35/100) ⟨[], []⟩ [] none none
      (by norm_num)).2.2.2 ⟨none, none, [], none, none⟩ (Or.inl rfl)⟩

/-- Counterexample to C9 as stated: order 42 is appended by a successful
sell placement in one cycle, but the next cycle's price fetch fails, so
that cycle attempts no cancellation at all — in particular order 42 is not
attempted exactly once in the next cycle. -/
theorem order_cancel_skipped_on_fetch_failure :
    (runCycle ⟨TOTAL_TOKENS, []⟩
        ⟨some (35/100), some ⟨[(34/100, 1000)], []⟩, [], some 42, some 43⟩).1.activeOrders
      = [42, 43]
    ∧ ((runCycle
          (runCycle ⟨TOTAL_TOKENS, []⟩
            ⟨some (35/100), some ⟨[(34/100, 1000)], []⟩, [], some 42, some 43⟩).1
          ⟨none, none, [], none, none⟩).2.filter Action.isCancel = []) := by
  constructor
  · norm_num [runCycle, priceFalsy, cancel_active_orders, record_order,
      MIN_SELL_PRICE, LAUNCH_PRICE, FLOOR_PRICE]
  · norm_num [runCycle, priceFalsy, Action.isCancel]

end GMRT

/-- C10: the mock test bot's sell trigger (`price >= MIN_SELL_PRICE`) and
buy trigger (`price > LAUNCH_PRICE and price >= FLOOR_PRICE`) agree with
the real trading bot's triggers at every price, both being built from the
same constants 0.30, 0.24 and 0.12. -/
theorem mock_triggers_eq_real_triggers (p : ℚ) :
    Mock.sellTrigger p = GMRT.sellTrigger p
    ∧ Mock.buyTrigger p = GMRT.buyTrigger p :=
  ⟨rfl, rfl⟩
